import Mathlib

/-!
# Verification of the go-interpreter recursive-descent parser

Shallow embedding of `src/internal/parser/parser.go` (the token-stream
cursor, the expression grammar engine, the statement layer and the
top-level `Parse` driver) and of the AST rendering visitor
(`src/unnamed/part_000`, package `tool`, `PrintAST`).

Modelling conventions:
* Go's mutable `Parser{Tokens, Current}` becomes an explicit state value
  `PState` threaded through every function.
* Go functions that can fail return `(value, error)`; here the result type
  `PRes` carries either a value or a `PError` together with the state the
  cursor was left in.
* The recursive grammar functions are indexed by a fuel parameter (the Go
  code's recursion is unbounded; the top-level `Parse` loop in fact fails
  to terminate on some inputs, which the fuel model lets us prove).
  `PRes.nofuel` means the fuel ran out, never a behaviour of the program.
* A Go `ast.Expr` interface value may be `nil`; the constructor
  `Expr.NilExpr` represents that nil interface value (the parser stores it
  in a `Grouping` after swallowing an inner error).
* Number literal values (Go `float64`) are modelled as integers; every
  concrete input in this development uses small whole numbers, for which
  Go's `%v` rendering agrees with integer rendering.
-/

/-- Token kinds, exactly the members of the `token` package that
`parser.go` and the grammar consume. -/
inductive TokenType where
  | LEFT_PAREN
  | RIGHT_PAREN
  | SEMICOLON
  | PRINT
  | BANG_EQUAL
  | EQUAL_EQUAL
  | GREATER
  | GREATER_EQUAL
  | LESS
  | LESS_EQUAL
  | MINUS
  | PLUS
  | SLASH
  | STAR
  | BANG
  | FALSE
  | TRUE
  | NIL
  | NUMBER
  | STRING
  | EOF
deriving DecidableEq

/-- Literal values carried by tokens and `Literal` AST nodes: Go's
`interface\x7b\x7d`, restricted to the shapes the parser produces
(`nil`, booleans, numbers, strings). -/
inductive Value where
  | vnil
  | vbool (b : Bool)
  | vnum (n : Int)
  | vstr (s : String)
deriving DecidableEq

/-- `token.Token`: kind, raw lexeme, literal value (nil when absent),
line and column.  Field names are lowercased Go field names
(`Type`, `Lexeme`, `Literal`, `Line`, `Char`). -/
structure Token where
  type : TokenType
  lexeme : String
  literal : Value
  line : Nat
  char : Nat
deriving DecidableEq

/-- `errors.ExecutionError` as raised by the parser: the `Type` field is
always `PARSER_ERROR` and is omitted; `line`, `col`, `message` model
`Line`, `Where`, `Message`. -/
structure PError where
  line : Nat
  col : Nat
  message : String
deriving DecidableEq

/-- The AST expression variants of the `ast`/`lox` packages.  `NilExpr`
stands for a nil Go interface value of type `ast.Expr` (see the module
comment); the other four constructors are `Literal`, `Grouping`,
`Unary`, `Binary`. -/
inductive Expr where
  | NilExpr
  | Literal (value : Value)
  | Grouping (inner : Expr)
  | Unary (op : Token) (right : Expr)
  | Binary (left : Expr) (op : Token) (right : Expr)
deriving DecidableEq

/-- The AST statement variants: `ast.ExpressionStmt` and `ast.PrintStmt`. -/
inductive Stmt where
  | ExpressionStmt (e : Expr)
  | PrintStmt (e : Expr)
deriving DecidableEq

/-- The parser state: `Parser.Tokens` and `Parser.Current`. -/
structure PState where
  tokens : List Token
  current : Nat
deriving DecidableEq

/-- Result of a fallible parsing function: a value or a `PError`, in both
cases with the state the cursor was left in; `nofuel` marks fuel
exhaustion of the model, not a program behaviour. -/
inductive PRes (α : Type) where
  | ok (a : α) (s : PState)
  | err (e : PError) (s : PState)
  | nofuel
deriving DecidableEq

/-- Placeholder token used to totalise list indexing.  Its kind is `EOF`,
so an out-of-range `peek` behaves like sitting on an end marker; on
EOF-terminated streams (the parser's documented precondition) the
placeholder is never reached. -/
def dummyToken : Token := ⟨.EOF, "", .vnil, 0, 0⟩

/-- `parser.peek()`: the token at the current position. -/
def peek (s : PState) : Token :=
  s.tokens.getD s.current dummyToken

/-- `parser.previous()`: the token immediately behind the current
position (`Tokens[Current-1]`; meaningful only after at least one
advance, where the index is in range). -/
def previous (s : PState) : Token :=
  s.tokens.getD (s.current - 1) dummyToken

/-- `parser.isAtEnd()`: the current token is the end-of-stream marker. -/
def isAtEnd (s : PState) : Bool :=
  (peek s).type == .EOF

/-- `parser.advance()`: step the cursor forward unless at the end marker,
then return `previous()` of the resulting state. -/
def advance (s : PState) : Token × PState :=
  let s' := if isAtEnd s then s else { s with current := s.current + 1 }
  (previous s', s')

/-- `parser.check(type_)`: not at end and the current token has the given
kind. -/
def check (s : PState) (t : TokenType) : Bool :=
  !isAtEnd s && ((peek s).type == t)

/-- `parser.match(types...)`: try each kind in order; on the first kind
that `check` accepts, advance and report true; otherwise report false
with the state untouched.  (`match` is a Lean keyword, hence `matchT`.) -/
def matchT (s : PState) : List TokenType → Bool × PState
  | [] => (false, s)
  | t :: rest =>
    if check s t then (true, (advance s).2) else matchT s rest

/-- `parser.consume(type_, message)`: advance past a token of the
expected kind, or produce a parser error at the current token's position
with the given message, leaving the cursor in place. -/
def consume (s : PState) (t : TokenType) (message : String) :
    Except PError Token × PState :=
  if check s t then
    let (tok, s') := advance s
    (.ok tok, s')
  else
    (.error ⟨(peek s).line, (peek s).char, message⟩, s)

mutual

/-- `parser.expression()`: delegate to `equality`. -/
def expression : Nat → PState → PRes Expr
  | 0, _ => .nofuel
  | fuel+1, s =>
    match equality fuel s with
    | .ok e s' => .ok e s'
    | .err e s' => .err e s'
    | .nofuel => .nofuel

/-- `parser.equality()`: a `comparison`, then fold `!=` / `==` chains. -/
def equality : Nat → PState → PRes Expr
  | 0, _ => .nofuel
  | fuel+1, s =>
    match comparison fuel s with
    | .ok e s' => equalityLoop fuel e s'
    | .err e s' => .err e s'
    | .nofuel => .nofuel

/-- The `for parser.match(BANG_EQUAL, EQUAL_EQUAL)` loop of `equality`. -/
def equalityLoop : Nat → Expr → PState → PRes Expr
  | 0, _, _ => .nofuel
  | fuel+1, e, s =>
    match matchT s [.BANG_EQUAL, .EQUAL_EQUAL] with
    | (true, s1) =>
      match comparison fuel s1 with
      | .ok right s2 => equalityLoop fuel (.Binary e (previous s1) right) s2
      | .err e2 s2 => .err e2 s2
      | .nofuel => .nofuel
    | (false, s1) => .ok e s1

/-- `parser.comparison()`: a `term`, then fold `>` `>=` `<` `<=` chains. -/
def comparison : Nat → PState → PRes Expr
  | 0, _ => .nofuel
  | fuel+1, s =>
    match term fuel s with
    | .ok e s' => comparisonLoop fuel e s'
    | .err e s' => .err e s'
    | .nofuel => .nofuel

/-- The `for parser.match(GREATER, GREATER_EQUAL, LESS, LESS_EQUAL)`
loop of `comparison`. -/
def comparisonLoop : Nat → Expr → PState → PRes Expr
  | 0, _, _ => .nofuel
  | fuel+1, e, s =>
    match matchT s [.GREATER, .GREATER_EQUAL, .LESS, .LESS_EQUAL] with
    | (true, s1) =>
      match term fuel s1 with
      | .ok right s2 => comparisonLoop fuel (.Binary e (previous s1) right) s2
      | .err e2 s2 => .err e2 s2
      | .nofuel => .nofuel
    | (false, s1) => .ok e s1

/-- `parser.term()`: a `factor`, then fold `-` / `+` chains. -/
def term : Nat → PState → PRes Expr
  | 0, _ => .nofuel
  | fuel+1, s =>
    match factor fuel s with
    | .ok e s' => termLoop fuel e s'
    | .err e s' => .err e s'
    | .nofuel => .nofuel

/-- The `for parser.match(MINUS, PLUS)` loop of `term`. -/
def termLoop : Nat → Expr → PState → PRes Expr
  | 0, _, _ => .nofuel
  | fuel+1, e, s =>
    match matchT s [.MINUS, .PLUS] with
    | (true, s1) =>
      match factor fuel s1 with
      | .ok right s2 => termLoop fuel (.Binary e (previous s1) right) s2
      | .err e2 s2 => .err e2 s2
      | .nofuel => .nofuel
    | (false, s1) => .ok e s1

/-- `parser.factor()`: a `unary`, then fold `/` / `*` chains. -/
def factor : Nat → PState → PRes Expr
  | 0, _ => .nofuel
  | fuel+1, s =>
    match unary fuel s with
    | .ok e s' => factorLoop fuel e s'
    | .err e s' => .err e s'
    | .nofuel => .nofuel

/-- The `for parser.match(SLASH, STAR)` loop of `factor`. -/
def factorLoop : Nat → Expr → PState → PRes Expr
  | 0, _, _ => .nofuel
  | fuel+1, e, s =>
    match matchT s [.SLASH, .STAR] with
    | (true, s1) =>
      match unary fuel s1 with
      | .ok right s2 => factorLoop fuel (.Binary e (previous s1) right) s2
      | .err e2 s2 => .err e2 s2
      | .nofuel => .nofuel
    | (false, s1) => .ok e s1

/-- `parser.unary()`: on `!` or `-`, consume the operator and recurse;
otherwise delegate to `primary`. -/
def unary : Nat → PState → PRes Expr
  | 0, _ => .nofuel
  | fuel+1, s =>
    match matchT s [.BANG, .MINUS] with
    | (true, s1) =>
      match unary fuel s1 with
      | .ok right s2 => .ok (.Unary (previous s1) right) s2
      | .err e2 s2 => .err e2 s2
      | .nofuel => .nofuel
    | (false, s1) => primary fuel s1

/-- `parser.primary()`: the literal productions in source order, the
parenthesized grouping (whose inner-expression error is printed to
stdout and otherwise discarded, leaving a nil inner expression), and
the `Unexpected token` failure that consumes nothing. -/
def primary : Nat → PState → PRes Expr
  | 0, _ => .nofuel
  | fuel+1, s =>
    match matchT s [.FALSE] with
    | (true, s1) => .ok (.Literal (.vbool false)) s1
    | (false, _) =>
      match matchT s [.TRUE] with
      | (true, s1) => .ok (.Literal (.vbool true)) s1
      | (false, _) =>
        match matchT s [.NIL] with
        | (true, s1) => .ok (.Literal .vnil) s1
        | (false, _) =>
          match matchT s [.NUMBER, .STRING] with
          | (true, s1) => .ok (.Literal (previous s1).literal) s1
          | (false, _) =>
            match matchT s [.LEFT_PAREN] with
            | (true, s1) =>
              match expression fuel s1 with
              | .ok e s2 =>
                (match consume s2 .RIGHT_PAREN "Expect ')' after expression." with
                 | (.ok _, s3) => .ok (.Grouping e) s3
                 | (.error e3, s3) => .err e3 s3)
              | .err _ s2 =>
                (match consume s2 .RIGHT_PAREN "Expect ')' after expression." with
                 | (.ok _, s3) => .ok (.Grouping .NilExpr) s3
                 | (.error e3, s3) => .err e3 s3)
              | .nofuel => .nofuel
            | (false, _) =>
              .err ⟨(peek s).line, (peek s).char,
                    "Unexpected token '" ++ (peek s).lexeme ++ "'"⟩ s

end

/-- `parser.printStatement()`: an expression, then a required `;`. -/
def printStatement : Nat → PState → PRes Stmt
  | 0, _ => .nofuel
  | fuel+1, s =>
    match expression fuel s with
    | .ok v s' =>
      (match consume s' .SEMICOLON "Expect ';' after value." with
       | (.ok _, s'') => .ok (.PrintStmt v) s''
       | (.error e, s'') => .err e s'')
    | .err e s' => .err e s'
    | .nofuel => .nofuel

/-- `parser.statement()`: a print statement after the `print` keyword,
otherwise an expression statement. -/
def statement : Nat → PState → PRes Stmt
  | 0, _ => .nofuel
  | fuel+1, s =>
    match matchT s [.PRINT] with
    | (true, s1) => printStatement fuel s1
    | (false, s1) =>
      match expression fuel s1 with
      | .ok e s' => .ok (.ExpressionStmt e) s'
      | .err e s' => .err e s'
      | .nofuel => .nofuel

/-- The `for !parser.isAtEnd()` loop of `parser.Parse()`: parse a
statement, append its result to the accumulator (a failed statement
contributes Go's nil, modelled `none`, after its error is printed), and
repeat.  `none` overall means the fuel ran out before the loop exited. -/
def parseLoop : Nat → PState → List (Option Stmt) →
    Option (List (Option Stmt) × PState)
  | 0, _, _ => none
  | fuel+1, s, acc =>
    if isAtEnd s then some (acc, s)
    else
      match statement fuel s with
      | .ok st s' => parseLoop fuel s' (acc ++ [some st])
      | .err _ s' => parseLoop fuel s' (acc ++ [none])
      | .nofuel => none

/-- `parser.Parse()` on a fresh parser over `toks`: the accumulated
statement slice paired with the error result, which the source returns
as literal `nil` (`return statements, nil`). -/
def ParseGo (fuel : Nat) (toks : List Token) :
    Option (List (Option Stmt) × Option PError) :=
  (parseLoop fuel ⟨toks, 0⟩ []).map (fun r => (r.1, none))

/-! ## Concrete token streams used in the claims -/

/-- A number token (lexeme, integer literal value, line, column). -/
def tNum (lex : String) (n : Int) (ln ch : Nat) : Token :=
  ⟨.NUMBER, lex, .vnum n, ln, ch⟩

/-- An end-of-stream marker token at the given position. -/
def tEOF (ln ch : Nat) : Token := ⟨.EOF, "", .vnil, ln, ch⟩

/-- A non-literal token (operator, punctuation or keyword). -/
def tOp (k : TokenType) (lex : String) (ln ch : Nat) : Token :=
  ⟨k, lex, .vnil, ln, ch⟩

/-- A stream whose first token matches no primary production: a lone
semicolon before the end marker. -/
def stuckToks : List Token := [tOp .SEMICOLON ";" 1 1, tEOF 1 2]

/-- The fresh parser state over `stuckToks`. -/
@[reducible] def stuckState : PState := ⟨stuckToks, 0⟩

/-- The error `primary` raises at the semicolon of `stuckToks`. -/
def stuckErr : PError := ⟨1, 1, "Unexpected token ';'"⟩

/-- Tokens for `1 + 2 * 3` followed by the end marker. -/
def precToks : List Token :=
  [tNum "1" 1 1 1, tOp .PLUS "+" 1 3, tNum "2" 2 1 5,
   tOp .STAR "*" 1 7, tNum "3" 3 1 9, tEOF 1 10]

/-- Tokens for `- - 5` followed by the end marker. -/
def unaryToks : List Token :=
  [tOp .MINUS "-" 1 1, tOp .MINUS "-" 1 3, tNum "5" 5 1 5, tEOF 1 6]

/-- Tokens for `( 1 + 2` with no closing parenthesis; the end marker sits
at the position immediately after `2`. -/
def missingParenToks : List Token :=
  [tOp .LEFT_PAREN "(" 1 1, tNum "1" 1 1 2, tOp .PLUS "+" 1 4,
   tNum "2" 2 1 6, tEOF 1 7]

/-- Tokens for `( )`: the grouping's inner expression fails at `)`. -/
def groupErrToks : List Token :=
  [tOp .LEFT_PAREN "(" 1 1, tOp .RIGHT_PAREN ")" 1 2, tEOF 1 3]

/-- Tokens for `print 1` with no terminating semicolon. -/
def printNoSemiToks : List Token :=
  [tOp .PRINT "print" 1 1, tNum "1" 1 1 7, tEOF 1 8]

/-! ## The driver loop on a stuck token

On `stuckToks` the statement rule fails without consuming anything, so
`Parse`'s loop re-enters `statement` in an identical state forever. -/

/-- On the stuck stream, `statement` either raises the primary error with
the cursor unmoved (when the fuel reaches `primary`) or runs out of fuel;
it never consumes a token. -/
theorem statement_stuck (f : Nat) :
    statement f stuckState = .err stuckErr stuckState ∨
      statement f stuckState = .nofuel := by
  match f with
  | 0 | 1 | 2 | 3 | 4 | 5 | 6 | 7 => right; rfl
  | n+8 => left; rfl

/-- The `Parse` loop never exits on the stuck stream, whatever the fuel
and whatever has been accumulated so far. -/
theorem parseLoop_stuck (fuel : Nat) :
    ∀ acc, parseLoop fuel stuckState acc = none := by
  induction fuel with
  | zero => intro acc; rfl
  | succ f ih =>
    intro acc
    have hend : isAtEnd stuckState = false := rfl
    rcases statement_stuck f with h | h <;>
      simp [parseLoop, hend, h, ih]

/-- Claim C1: the spec promises that parsing a bounded, EOF-terminated
token sequence always terminates, even when a statement begins with a
token matching no primary production.  The code breaks this promise: on
the stream `; <EOF>` the failed statement leaves the cursor in place, so
the `Parse` loop repeats the identical state forever — for every fuel
bound the loop is still running. -/
theorem parse_loops_forever_on_unmatched_token (fuel : Nat) :
    ParseGo fuel stuckToks = none := by
  simp [ParseGo, parseLoop_stuck]

/-- Claim C3 counterexample: the claim asserts that on every
EOF-terminated stream `Parse` returns (with a nil error).  On the stream
`; <EOF>` it never returns at all: no fuel bound makes the loop exit. -/
theorem parse_never_returns_on_stuck_input_cex :
    ¬ ∃ fuel r, ParseGo fuel stuckToks = some r := by
  rintro ⟨fuel, r, h⟩
  simp [ParseGo, parseLoop_stuck] at h

/-- Claim C3 (amended): whenever `Parse` does return, its error component
is the literal nil of `return statements, nil`; and a failed statement
contributes a nil entry to the returned slice, as on `print 1` (missing
semicolon), where the result is the one-element slice `[nil]` with a nil
error, so the caller cannot observe the failure. -/
theorem parse_nil_error_and_nil_append :
    (∀ fuel toks,
        Option.all (fun r => r.2 == none) (ParseGo fuel toks) = true) ∧
      ParseGo 20 printNoSemiToks = some ([none], none) := by
  refine ⟨fun fuel toks => ?_, rfl⟩
  cases h : parseLoop fuel ⟨toks, 0⟩ [] <;> simp [ParseGo, h]

/-- Claim C5: precedence nests the tighter-binding operator deeper; the
tokens of `1 + 2 * 3` parse to an addition node whose right child is the
multiplication node. -/
theorem precedence_mul_inside_add :
    expression 40 ⟨precToks, 0⟩ =
      .ok (.Binary (.Literal (.vnum 1)) (tOp .PLUS "+" 1 3)
            (.Binary (.Literal (.vnum 2)) (tOp .STAR "*" 1 7)
              (.Literal (.vnum 3))))
        ⟨precToks, 5⟩ := rfl

/-- Claim C6: unary operators self-recurse and nest to the right; the
tokens of `- - 5` parse to `Unary("-", Unary("-", Literal(5)))`. -/
theorem unary_right_assoc_nested :
    expression 40 ⟨unaryToks, 0⟩ =
      .ok (.Unary (tOp .MINUS "-" 1 1)
            (.Unary (tOp .MINUS "-" 1 3) (.Literal (.vnum 5))))
        ⟨unaryToks, 3⟩ := rfl

/-! ## Cursor contracts -/

/-- Claim C7: `consume` behaves like `advance` when the current token has
the expected kind, and otherwise returns a parser error carrying the
current token's line, column and exactly the given message, with the
cursor left in place; concretely, `( 1 + 2` with no `)` yields the error
`"Expect ')' after expression."` at the position immediately after `2`. -/
theorem consume_contract_and_missing_paren :
    (∀ (s : PState) (k : TokenType) (msg : String),
      (check s k = true →
        consume s k msg = (.ok (peek s), { s with current := s.current + 1 })) ∧
      (check s k = false →
        consume s k msg = (.error ⟨(peek s).line, (peek s).char, msg⟩, s))) ∧
    expression 40 ⟨missingParenToks, 0⟩ =
      .err ⟨1, 7, "Expect ')' after expression."⟩ ⟨missingParenToks, 4⟩ := by
  refine ⟨fun s k msg => ⟨fun h => ?_, fun h => ?_⟩, rfl⟩
  · have hck := h
    simp only [check, Bool.and_eq_true, Bool.not_eq_true', beq_iff_eq] at h
    simp [consume, hck, advance, h.1, previous, peek]
  · simp [consume, h]

/-- Witness for claim C7's contract at a concrete state: consuming the
semicolon that `stuckState` sits on advances past it. -/
theorem consume_contract_witness :
    consume stuckState .SEMICOLON "msg" =
      (.ok (peek stuckState), { stuckState with current := stuckState.current + 1 }) :=
  (consume_contract_and_missing_paren.1 stuckState .SEMICOLON "msg").1 (by decide)

/-- Claim C9 counterexample: at the end marker, `advance` does not return
the token at the current position.  With the cursor on the `EOF` of
`1 <EOF>`, `advance` returns the number token behind the cursor, which
differs from the token at the current position. -/
theorem advance_at_end_returns_previous_cex :
    advance ⟨[tNum "1" 1 1 1, tEOF 1 2], 1⟩ =
      (tNum "1" 1 1 1, ⟨[tNum "1" 1 1 1, tEOF 1 2], 1⟩) ∧
    peek ⟨[tNum "1" 1 1 1, tEOF 1 2], 1⟩ ≠ tNum "1" 1 1 1 :=
  ⟨rfl, by decide⟩

/-- Claim C9 (amended): off the end marker, `advance` returns the token
at the current position and moves the position forward by one; at the end
marker the position does not move and `advance` returns the token
immediately behind the current position (`previous`), not the one at the
current position. -/
theorem advance_contract_amended :
    ∀ s : PState,
      (isAtEnd s = false →
        advance s = (peek s, { s with current := s.current + 1 })) ∧
      (isAtEnd s = true → 0 < s.current → advance s = (previous s, s)) := by
  intro s
  constructor
  · intro h
    simp [advance, h, previous, peek]
  · intro h _
    simp [advance, h]

/-- Witness for claim C9's amended contract: at the end marker of
`; <EOF>` with the cursor on `EOF`, `advance` returns `previous` and
stays put. -/
theorem advance_contract_amended_witness :
    advance ⟨stuckToks, 1⟩ = (previous ⟨stuckToks, 1⟩, ⟨stuckToks, 1⟩) :=
  (advance_contract_amended ⟨stuckToks, 1⟩).2 (by decide) (by decide)

/-- Claim C10: `match` succeeds exactly when the cursor is not at the end
marker and the current token's kind is among the given kinds; on success
the position moves forward by exactly one, and on failure the state is
unchanged. -/
theorem match_cursor_contract :
    ∀ (s : PState) (ts : List TokenType),
      ((matchT s ts).1 = true ↔ isAtEnd s = false ∧ (peek s).type ∈ ts) ∧
      (matchT s ts).2 =
        (if (matchT s ts).1 then { s with current := s.current + 1 } else s) := by
  intro s ts
  induction ts with
  | nil => simp [matchT]
  | cons t rest ih =>
    cases hc : check s t with
    | true =>
      have h' : isAtEnd s = false ∧ (peek s).type = t := by
        simpa only [check, Bool.and_eq_true, Bool.not_eq_true', beq_iff_eq] using hc
      constructor
      · simp [matchT, hc, h'.1, h'.2]
      · simp [matchT, hc, advance, h'.1]
    | false =>
      have h' : ¬(isAtEnd s = false ∧ (peek s).type = t) := by
        intro hcontra
        have : check s t = true := by
          simp [check, hcontra.1, hcontra.2]
        rw [hc] at this
        exact Bool.false_ne_true this
      have hred : matchT s (t :: rest) = matchT s rest := by
        simp [matchT, hc]
      constructor
      · rw [hred, ih.1]
        constructor
        · rintro ⟨he, hm⟩
          exact ⟨he, List.mem_cons_of_mem t hm⟩
        · rintro ⟨he, hm⟩
          rcases List.mem_cons.mp hm with hm | hm
          · exact absurd ⟨he, hm⟩ h'
          · exact ⟨he, hm⟩
      · rw [hred, ih.2]

/-! ## Error propagation inside expression parsing -/

/-- Claim C2 counterexample: on the tokens of `( )`, the grammar rule
invoked for the grouping's inner expression returns a parse error
(`Unexpected token ')'`), yet the enclosing expression call returns a
tree — a `Grouping` holding Go's nil expression — rather than that
error.  (In the trace of the outer call at fuel 40, the inner expression
call is made at fuel 33 and cursor 1.) -/
theorem grouping_inner_error_swallowed_cex :
    expression 33 ⟨groupErrToks, 1⟩ =
      .err ⟨1, 2, "Unexpected token ')'"⟩ ⟨groupErrToks, 1⟩ ∧
    expression 40 ⟨groupErrToks, 0⟩ =
      .ok (.Grouping .NilExpr) ⟨groupErrToks, 2⟩ :=
  ⟨rfl, rfl⟩

/-- Claim C2 (amended): every error returned by a sub-rule of the
expression grammar propagates to its caller — each precedence level
forwards a failure of the level below it, a matched unary operator
forwards its operand's failure, and each binary-operator loop forwards
its right operand's failure — with exactly one exception: in the
parenthesized-grouping branch of `primary`, an error from the inner
expression call is printed and discarded, after which `primary` still
requires `')'` and returns a `Grouping` with a nil inner expression when
the `')'` is present (the failure of the `')'` consume itself is
propagated). -/
theorem expr_error_propagation_amended :
    (∀ f s e s', equality f s = .err e s' → expression (f+1) s = .err e s') ∧
    (∀ f s e s', comparison f s = .err e s' → equality (f+1) s = .err e s') ∧
    (∀ f s e s', term f s = .err e s' → comparison (f+1) s = .err e s') ∧
    (∀ f s e s', factor f s = .err e s' → term (f+1) s = .err e s') ∧
    (∀ f s e s', unary f s = .err e s' → factor (f+1) s = .err e s') ∧
    (∀ f s s1 e s', matchT s [.BANG, .MINUS] = (false, s1) →
      primary f s1 = .err e s' → unary (f+1) s = .err e s') ∧
    (∀ f s s1 e s', matchT s [.BANG, .MINUS] = (true, s1) →
      unary f s1 = .err e s' → unary (f+1) s = .err e s') ∧
    (∀ f ex s s1 e s', matchT s [.BANG_EQUAL, .EQUAL_EQUAL] = (true, s1) →
      comparison f s1 = .err e s' → equalityLoop (f+1) ex s = .err e s') ∧
    (∀ f ex s s1 e s',
      matchT s [.GREATER, .GREATER_EQUAL, .LESS, .LESS_EQUAL] = (true, s1) →
      term f s1 = .err e s' → comparisonLoop (f+1) ex s = .err e s') ∧
    (∀ f ex s s1 e s', matchT s [.MINUS, .PLUS] = (true, s1) →
      factor f s1 = .err e s' → termLoop (f+1) ex s = .err e s') ∧
    (∀ f ex s s1 e s', matchT s [.SLASH, .STAR] = (true, s1) →
      unary f s1 = .err e s' → factorLoop (f+1) ex s = .err e s') ∧
    (∀ f s s1 e s2, matchT s [.LEFT_PAREN] = (true, s1) →
      expression f s1 = .err e s2 →
      primary (f+1) s =
        (match consume s2 .RIGHT_PAREN "Expect ')' after expression." with
         | (.ok _, s3) => .ok (.Grouping .NilExpr) s3
         | (.error e3, s3) => .err e3 s3)) := by
  refine ⟨?_, ?_, ?_, ?_, ?_, ?_, ?_, ?_, ?_, ?_, ?_, ?_⟩
  · intro f s e s' h
    simp [expression, h]
  · intro f s e s' h
    simp [equality, h]
  · intro f s e s' h
    simp [comparison, h]
  · intro f s e s' h
    simp [term, h]
  · intro f s e s' h
    simp [factor, h]
  · intro f s s1 e s' hm hp
    simp [unary, hm, hp]
  · intro f s s1 e s' hm hu
    simp [unary, hm, hu]
  · intro f ex s s1 e s' hm hc
    simp [equalityLoop, hm, hc]
  · intro f ex s s1 e s' hm hc
    simp [comparisonLoop, hm, hc]
  · intro f ex s s1 e s' hm hc
    simp [termLoop, hm, hc]
  · intro f ex s s1 e s' hm hc
    simp [factorLoop, hm, hc]
  · intro f s s1 e s2 hm hexp
    have hck : check s .LEFT_PAREN = true := by
      cases hcc : check s .LEFT_PAREN
      · simp [matchT, hcc] at hm
      · rfl
    have hpk : isAtEnd s = false ∧ (peek s).type = .LEFT_PAREN := by
      simpa only [check, Bool.and_eq_true, Bool.not_eq_true', beq_iff_eq] using hck
    have hs1 : s1 = { s with current := s.current + 1 } := by
      simp [matchT, hck, advance, hpk.1] at hm
      exact hm.symm
    subst hs1
    have b1 : (TokenType.LEFT_PAREN == TokenType.EOF) = false := rfl
    have b2 : (TokenType.LEFT_PAREN == TokenType.FALSE) = false := rfl
    have b3 : (TokenType.LEFT_PAREN == TokenType.TRUE) = false := rfl
    have b4 : (TokenType.LEFT_PAREN == TokenType.NIL) = false := rfl
    have b5 : (TokenType.LEFT_PAREN == TokenType.NUMBER) = false := rfl
    have b6 : (TokenType.LEFT_PAREN == TokenType.STRING) = false := rfl
    have b7 : (TokenType.LEFT_PAREN == TokenType.LEFT_PAREN) = true := rfl
    simp [primary, matchT, check, isAtEnd, advance, hpk.2,
      b1, b2, b3, b4, b5, b6, b7, hexp]

/-- Witness for claim C2's amended propagation at a concrete input: the
primary-level error on `; <EOF>` propagates through `equality` to
`expression`. -/
theorem expr_error_propagation_amended_witness :
    expression 21 stuckState = .err stuckErr stuckState :=
  expr_error_propagation_amended.1 20 stuckState stuckErr stuckState rfl

/-! ## The AST rendering visitor (`tool.PrintAST`) -/

/-- Modelled from the spec: the `lox` package that `PrintAST` consumes
(its `Token` type and the textual form `%s` gives it in `VisitUnary`) is
not under `src/`; per the spec the operator's textual contribution to a
rendered unary node is its lexeme. -/
def tokenText (t : Token) : String := t.lexeme

/-- Go's `fmt.Sprintf("%v", v)` on the literal values the parser
produces: booleans print `true` / `false`, strings print their raw text,
whole numbers print their digits, and the nil interface value prints
`<nil>`. -/
def valueToString : Value → String
  | .vnil => "<nil>"
  | .vbool true => "true"
  | .vbool false => "false"
  | .vnum n => toString n
  | .vstr str => str

/-- `PrintAST`'s exhaustive dispatch, as one recursive function: the
`VisitBinary`, `VisitGrouping`, `VisitLiteral` and `VisitUnary` cases of
`src/unnamed/part_000`.  Rendering a nil expression (`NilExpr`) is
`none`: calling `Accept` on a nil Go interface panics. -/
def printAST : Expr → Option String
  | .NilExpr => none
  | .Literal v => some (valueToString v)
  | .Grouping inner => do
      let si ← printAST inner
      pure ("(group " ++ si ++ ")")
  | .Unary op right => do
      let sr ← printAST right
      pure ("(" ++ tokenText op ++ " " ++ sr ++ ")")
  | .Binary left op right => do
      let sl ← printAST left
      let sr ← printAST right
      pure ("(" ++ sl ++ " " ++ sr ++ " " ++ op.lexeme ++ ")")

/-- Claim C8 counterexample: a literal holding the nil value renders as
`<nil>` (Go's `%v` form of a nil interface), not as the text `nil` the
claim states. -/
theorem literal_nil_renders_angle_nil_cex :
    printAST (.Literal .vnil) = some "<nil>" ∧ "<nil>" ≠ "nil" :=
  ⟨rfl, by decide⟩

/-- Claim C8 (amended): the rendering visitor produces `Binary` as
`"(" + render(left) + " " + render(right) + " " + operator lexeme + ")"`,
`Grouping` as `"(group " + render(inner) + ")"`, `Unary` as
`"(" + operator lexeme + " " + render(operand) + ")"`, and `Literal` as
the value's default string form — where the nil value's default form is
`<nil>`, not `nil`. -/
theorem printAST_equations_amended :
    (∀ l op r sl sr, printAST l = some sl → printAST r = some sr →
      printAST (.Binary l op r) =
        some ("(" ++ sl ++ " " ++ sr ++ " " ++ op.lexeme ++ ")")) ∧
    (∀ inner si, printAST inner = some si →
      printAST (.Grouping inner) = some ("(group " ++ si ++ ")")) ∧
    (∀ op r sr, printAST r = some sr →
      printAST (.Unary op r) = some ("(" ++ tokenText op ++ " " ++ sr ++ ")")) ∧
    (∀ b, printAST (.Literal (.vbool b)) =
      some (if b then "true" else "false")) ∧
    (∀ str, printAST (.Literal (.vstr str)) = some str) ∧
    (∀ n, printAST (.Literal (.vnum n)) = some (toString n)) ∧
    printAST (.Literal .vnil) = some "<nil>" := by
  refine ⟨?_, ?_, ?_, ?_, fun str => rfl, fun n => rfl, rfl⟩
  · intro l op r sl sr hl hr
    simp [printAST, hl, hr]
  · intro inner si hi
    simp [printAST, hi]
  · intro op r sr hr
    simp [printAST, hr]
  · intro b
    cases b <;> rfl

/-- Witness for claim C8's amended equations at a concrete tree:
`Grouping(Literal(true))` renders as `(group true)`. -/
theorem printAST_equations_amended_witness :
    printAST (.Grouping (.Literal (.vbool true))) =
      some ("(group " ++ "true" ++ ")") :=
  printAST_equations_amended.2.1 (.Literal (.vbool true)) "true" rfl

/-! ## Left-associativity of the binary levels -/

/-- Token kinds that `primary` accepts as single-token literals. -/
def isLitKind : TokenType → Bool
  | .FALSE | .TRUE | .NIL | .NUMBER | .STRING => true
  | _ => false

/-- Token kinds of the four binary precedence levels: equality,
comparison, additive, multiplicative. -/
def isBinOpKind : TokenType → Bool
  | .BANG_EQUAL | .EQUAL_EQUAL | .GREATER | .GREATER_EQUAL
  | .LESS | .LESS_EQUAL | .MINUS | .PLUS | .SLASH | .STAR => true
  | _ => false

/-- The `Literal` node `primary` builds for a literal token, following
`primary`'s cases: `false`, `true`, `nil`, or the token's literal value
for numbers and strings. -/
def litExpr (t : Token) : Expr :=
  match t.type with
  | .FALSE => .Literal (.vbool false)
  | .TRUE => .Literal (.vbool true)
  | .NIL => .Literal .vnil
  | _ => .Literal t.literal

/-- The multiplicative-level operator kinds. -/
def isMulKind : TokenType → Bool
  | .SLASH | .STAR => true
  | _ => false

/-- The additive-level operator kinds. -/
def isAddKind : TokenType → Bool
  | .MINUS | .PLUS => true
  | _ => false

/-- The comparison-level operator kinds. -/
def isCmpKind : TokenType → Bool
  | .GREATER | .GREATER_EQUAL | .LESS | .LESS_EQUAL => true
  | _ => false

/-- The equality-level operator kinds. -/
def isEqKind : TokenType → Bool
  | .BANG_EQUAL | .EQUAL_EQUAL => true
  | _ => false

/-- An additive operator never matches the multiplicative loop. -/
theorem addKind_stops (k : TokenType) (h : isAddKind k = true) :
    (k == TokenType.SLASH) = false ∧ (k == TokenType.STAR) = false := by
  cases k <;> simp [isAddKind] at h <;> simp

/-- A comparison operator never matches the additive or multiplicative
loops. -/
theorem cmpKind_stops (k : TokenType) (h : isCmpKind k = true) :
    (k == TokenType.SLASH) = false ∧ (k == TokenType.STAR) = false ∧
    (k == TokenType.MINUS) = false ∧ (k == TokenType.PLUS) = false := by
  cases k <;> simp [isCmpKind] at h <;> simp

/-- An equality operator never matches the comparison, additive or
multiplicative loops. -/
theorem eqKind_stops (k : TokenType) (h : isEqKind k = true) :
    (k == TokenType.SLASH) = false ∧ (k == TokenType.STAR) = false ∧
    (k == TokenType.MINUS) = false ∧ (k == TokenType.PLUS) = false ∧
    (k == TokenType.GREATER) = false ∧ (k == TokenType.GREATER_EQUAL) = false ∧
    (k == TokenType.LESS) = false ∧ (k == TokenType.LESS_EQUAL) = false := by
  cases k <;> simp [isEqKind] at h <;> simp

/-- `check` fails for a kind other than the current token's. -/
theorem check_eq_false_of_kind (s : PState) (k k' : TokenType)
    (hpk : (peek s).type = k) (hne : (k == k') = false) :
    check s k' = false := by
  simp [check, hpk, hne]

/-- A multiplicative operator under the cursor makes the multiplicative
loop's `match` succeed and advance. -/
theorem matchT_mul_true (s : PState) (h : isMulKind (peek s).type = true) :
    matchT s [.SLASH, .STAR] = (true, { s with current := s.current + 1 }) := by
  cases hk : (peek s).type <;> rw [hk] at h <;> simp [isMulKind] at h <;>
    simp [matchT, check, isAtEnd, advance, hk]

/-- An additive operator under the cursor makes the additive loop's
`match` succeed and advance. -/
theorem matchT_add_true (s : PState) (h : isAddKind (peek s).type = true) :
    matchT s [.MINUS, .PLUS] = (true, { s with current := s.current + 1 }) := by
  cases hk : (peek s).type <;> rw [hk] at h <;> simp [isAddKind] at h <;>
    simp [matchT, check, isAtEnd, advance, hk]

/-- A comparison operator under the cursor makes the comparison loop's
`match` succeed and advance. -/
theorem matchT_cmp_true (s : PState) (h : isCmpKind (peek s).type = true) :
    matchT s [.GREATER, .GREATER_EQUAL, .LESS, .LESS_EQUAL] =
      (true, { s with current := s.current + 1 }) := by
  cases hk : (peek s).type <;> rw [hk] at h <;> simp [isCmpKind] at h <;>
    simp [matchT, check, isAtEnd, advance, hk]

/-- An equality operator under the cursor makes the equality loop's
`match` succeed and advance. -/
theorem matchT_eq_true (s : PState) (h : isEqKind (peek s).type = true) :
    matchT s [.BANG_EQUAL, .EQUAL_EQUAL] =
      (true, { s with current := s.current + 1 }) := by
  cases hk : (peek s).type <;> rw [hk] at h <;> simp [isEqKind] at h <;>
    simp [matchT, check, isAtEnd, advance, hk]

/-- `primary` on a literal token produces its `Literal` node and
advances one position. -/
theorem primary_lit (f : Nat) (toks : List Token) (i : Nat) (t : Token)
    (hpk : peek ⟨toks, i⟩ = t) (hlit : isLitKind t.type = true) :
    primary (f+1) ⟨toks, i⟩ = .ok (litExpr t) ⟨toks, i+1⟩ := by
  have hprev : previous ⟨toks, i+1⟩ = t := by
    simpa [previous, peek] using hpk
  obtain ⟨kt, lt, vt, nt, cht⟩ := t
  cases kt <;> simp [isLitKind] at hlit <;>
    simp [primary, litExpr, matchT, check, isAtEnd, advance, hpk, hprev]

/-- `unary` on a literal token delegates to `primary`. -/
theorem unary_lit (f : Nat) (toks : List Token) (i : Nat) (t : Token)
    (hpk : peek ⟨toks, i⟩ = t) (hlit : isLitKind t.type = true) :
    unary (f+2) ⟨toks, i⟩ = .ok (litExpr t) ⟨toks, i+1⟩ := by
  have hp := primary_lit f toks i t hpk hlit
  obtain ⟨kt, lt, vt, nt, cht⟩ := t
  cases kt <;> simp [isLitKind] at hlit <;>
    simp [unary, matchT, check, isAtEnd, hpk, hp]

/-- `factor` on a literal token not followed by a multiplicative
operator produces its `Literal` node and advances one position. -/
theorem factor_lit (f : Nat) (toks : List Token) (i : Nat) (t : Token)
    (hpk : peek ⟨toks, i⟩ = t) (hlit : isLitKind t.type = true)
    (h1 : check ⟨toks, i+1⟩ .SLASH = false)
    (h2 : check ⟨toks, i+1⟩ .STAR = false) :
    factor (f+3) ⟨toks, i⟩ = .ok (litExpr t) ⟨toks, i+1⟩ := by
  have hu := unary_lit f toks i t hpk hlit
  simp [factor, factorLoop, matchT, hu, h1, h2]

/-- `term` on a literal token not followed by an additive or
multiplicative operator produces its `Literal` node and advances. -/
theorem term_lit (f : Nat) (toks : List Token) (i : Nat) (t : Token)
    (hpk : peek ⟨toks, i⟩ = t) (hlit : isLitKind t.type = true)
    (h1 : check ⟨toks, i+1⟩ .SLASH = false)
    (h2 : check ⟨toks, i+1⟩ .STAR = false)
    (h3 : check ⟨toks, i+1⟩ .MINUS = false)
    (h4 : check ⟨toks, i+1⟩ .PLUS = false) :
    term (f+4) ⟨toks, i⟩ = .ok (litExpr t) ⟨toks, i+1⟩ := by
  have hf := factor_lit f toks i t hpk hlit h1 h2
  simp [term, termLoop, matchT, hf, h3, h4]

/-- `comparison` on a literal token not followed by a comparison,
additive or multiplicative operator produces its `Literal` node and
advances. -/
theorem comparison_lit (f : Nat) (toks : List Token) (i : Nat) (t : Token)
    (hpk : peek ⟨toks, i⟩ = t) (hlit : isLitKind t.type = true)
    (h1 : check ⟨toks, i+1⟩ .SLASH = false)
    (h2 : check ⟨toks, i+1⟩ .STAR = false)
    (h3 : check ⟨toks, i+1⟩ .MINUS = false)
    (h4 : check ⟨toks, i+1⟩ .PLUS = false)
    (h5 : check ⟨toks, i+1⟩ .GREATER = false)
    (h6 : check ⟨toks, i+1⟩ .GREATER_EQUAL = false)
    (h7 : check ⟨toks, i+1⟩ .LESS = false)
    (h8 : check ⟨toks, i+1⟩ .LESS_EQUAL = false) :
    comparison (f+5) ⟨toks, i⟩ = .ok (litExpr t) ⟨toks, i+1⟩ := by
  have ht := term_lit f toks i t hpk hlit h1 h2 h3 h4
  simp [comparison, comparisonLoop, matchT, ht, h5, h6, h7, h8]

/-- The six-token stream `a op b op c <EOF>` of claim C4. -/
def assocToks (a o1 b o2 c : Token) : List Token :=
  [a, o1, b, o2, c, tEOF 9 9]

/-- Left association at the additive level. -/
theorem assocAddLevel (a o1 b o2 c : Token)
    (ha : isLitKind a.type = true) (hb : isLitKind b.type = true)
    (hc : isLitKind c.type = true)
    (hk : isAddKind o1.type = true) (hoo : o2.type = o1.type) :
    expression 40 ⟨assocToks a o1 b o2 c, 0⟩ =
      .ok (.Binary (.Binary (litExpr a) o1 (litExpr b)) o2 (litExpr c))
        ⟨assocToks a o1 b o2 c, 5⟩ := by
  have ho2 : isAddKind o2.type = true := by rw [hoo]; exact hk
  have pt1 : (peek ⟨assocToks a o1 b o2 c, 1⟩).type = o1.type := rfl
  have pt3 : (peek ⟨assocToks a o1 b o2 c, 3⟩).type = o2.type := rfl
  have pv1 : previous ⟨assocToks a o1 b o2 c, 2⟩ = o1 := rfl
  have pv3 : previous ⟨assocToks a o1 b o2 c, 4⟩ = o2 := rfl
  have sa := addKind_stops o1.type hk
  have sb := addKind_stops o2.type ho2
  have hfa : factor 36 ⟨assocToks a o1 b o2 c, 0⟩ =
      .ok (litExpr a) ⟨assocToks a o1 b o2 c, 1⟩ :=
    factor_lit 33 _ 0 a rfl ha
      (check_eq_false_of_kind _ _ _ pt1 sa.1)
      (check_eq_false_of_kind _ _ _ pt1 sa.2)
  have hfb : factor 35 ⟨assocToks a o1 b o2 c, 2⟩ =
      .ok (litExpr b) ⟨assocToks a o1 b o2 c, 3⟩ :=
    factor_lit 32 _ 2 b rfl hb
      (check_eq_false_of_kind _ _ _ pt3 sb.1)
      (check_eq_false_of_kind _ _ _ pt3 sb.2)
  have hfc : factor 34 ⟨assocToks a o1 b o2 c, 4⟩ =
      .ok (litExpr c) ⟨assocToks a o1 b o2 c, 5⟩ :=
    factor_lit 31 _ 4 c rfl hc rfl rfl
  have hm1 : matchT ⟨assocToks a o1 b o2 c, 1⟩ [.MINUS, .PLUS] =
      (true, ⟨assocToks a o1 b o2 c, 2⟩) :=
    matchT_add_true _ (by rw [pt1]; exact hk)
  have hm3 : matchT ⟨assocToks a o1 b o2 c, 3⟩ [.MINUS, .PLUS] =
      (true, ⟨assocToks a o1 b o2 c, 4⟩) :=
    matchT_add_true _ (by rw [pt3]; exact ho2)
  have hsAdd : matchT ⟨assocToks a o1 b o2 c, 5⟩ [.MINUS, .PLUS] =
      (false, ⟨assocToks a o1 b o2 c, 5⟩) := rfl
  have hsCmp : matchT ⟨assocToks a o1 b o2 c, 5⟩
      [.GREATER, .GREATER_EQUAL, .LESS, .LESS_EQUAL] =
      (false, ⟨assocToks a o1 b o2 c, 5⟩) := rfl
  have hsEq : matchT ⟨assocToks a o1 b o2 c, 5⟩ [.BANG_EQUAL, .EQUAL_EQUAL] =
      (false, ⟨assocToks a o1 b o2 c, 5⟩) := rfl
  simp [expression, equality, equalityLoop, comparison, comparisonLoop, term,
    termLoop, pv1, pv3, hfa, hfb, hfc, hm1, hm3, hsAdd, hsCmp, hsEq]

/-- Left association at the multiplicative level. -/
theorem assocMulLevel (a o1 b o2 c : Token)
    (ha : isLitKind a.type = true) (hb : isLitKind b.type = true)
    (hc : isLitKind c.type = true)
    (hk : isMulKind o1.type = true) (hoo : o2.type = o1.type) :
    expression 40 ⟨assocToks a o1 b o2 c, 0⟩ =
      .ok (.Binary (.Binary (litExpr a) o1 (litExpr b)) o2 (litExpr c))
        ⟨assocToks a o1 b o2 c, 5⟩ := by
  have ho2 : isMulKind o2.type = true := by rw [hoo]; exact hk
  have pt1 : (peek ⟨assocToks a o1 b o2 c, 1⟩).type = o1.type := rfl
  have pt3 : (peek ⟨assocToks a o1 b o2 c, 3⟩).type = o2.type := rfl
  have pv1 : previous ⟨assocToks a o1 b o2 c, 2⟩ = o1 := rfl
  have pv3 : previous ⟨assocToks a o1 b o2 c, 4⟩ = o2 := rfl
  have hua : unary 35 ⟨assocToks a o1 b o2 c, 0⟩ =
      .ok (litExpr a) ⟨assocToks a o1 b o2 c, 1⟩ :=
    unary_lit 33 _ 0 a rfl ha
  have hub : unary 34 ⟨assocToks a o1 b o2 c, 2⟩ =
      .ok (litExpr b) ⟨assocToks a o1 b o2 c, 3⟩ :=
    unary_lit 32 _ 2 b rfl hb
  have huc : unary 33 ⟨assocToks a o1 b o2 c, 4⟩ =
      .ok (litExpr c) ⟨assocToks a o1 b o2 c, 5⟩ :=
    unary_lit 31 _ 4 c rfl hc
  have hm1 : matchT ⟨assocToks a o1 b o2 c, 1⟩ [.SLASH, .STAR] =
      (true, ⟨assocToks a o1 b o2 c, 2⟩) :=
    matchT_mul_true _ (by rw [pt1]; exact hk)
  have hm3 : matchT ⟨assocToks a o1 b o2 c, 3⟩ [.SLASH, .STAR] =
      (true, ⟨assocToks a o1 b o2 c, 4⟩) :=
    matchT_mul_true _ (by rw [pt3]; exact ho2)
  have hsMul : matchT ⟨assocToks a o1 b o2 c, 5⟩ [.SLASH, .STAR] =
      (false, ⟨assocToks a o1 b o2 c, 5⟩) := rfl
  have hsAdd : matchT ⟨assocToks a o1 b o2 c, 5⟩ [.MINUS, .PLUS] =
      (false, ⟨assocToks a o1 b o2 c, 5⟩) := rfl
  have hsCmp : matchT ⟨assocToks a o1 b o2 c, 5⟩
      [.GREATER, .GREATER_EQUAL, .LESS, .LESS_EQUAL] =
      (false, ⟨assocToks a o1 b o2 c, 5⟩) := rfl
  have hsEq : matchT ⟨assocToks a o1 b o2 c, 5⟩ [.BANG_EQUAL, .EQUAL_EQUAL] =
      (false, ⟨assocToks a o1 b o2 c, 5⟩) := rfl
  simp [expression, equality, equalityLoop, comparison, comparisonLoop, term,
    termLoop, factor, factorLoop, pv1, pv3, hua, hub, huc, hm1, hm3,
    hsMul, hsAdd, hsCmp, hsEq]

/-- Left association at the comparison level. -/
theorem assocCmpLevel (a o1 b o2 c : Token)
    (ha : isLitKind a.type = true) (hb : isLitKind b.type = true)
    (hc : isLitKind c.type = true)
    (hk : isCmpKind o1.type = true) (hoo : o2.type = o1.type) :
    expression 40 ⟨assocToks a o1 b o2 c, 0⟩ =
      .ok (.Binary (.Binary (litExpr a) o1 (litExpr b)) o2 (litExpr c))
        ⟨assocToks a o1 b o2 c, 5⟩ := by
  have ho2 : isCmpKind o2.type = true := by rw [hoo]; exact hk
  have pt1 : (peek ⟨assocToks a o1 b o2 c, 1⟩).type = o1.type := rfl
  have pt3 : (peek ⟨assocToks a o1 b o2 c, 3⟩).type = o2.type := rfl
  have pv1 : previous ⟨assocToks a o1 b o2 c, 2⟩ = o1 := rfl
  have pv3 : previous ⟨assocToks a o1 b o2 c, 4⟩ = o2 := rfl
  have sa := cmpKind_stops o1.type hk
  have sb := cmpKind_stops o2.type ho2
  have hta : term 37 ⟨assocToks a o1 b o2 c, 0⟩ =
      .ok (litExpr a) ⟨assocToks a o1 b o2 c, 1⟩ :=
    term_lit 33 _ 0 a rfl ha
      (check_eq_false_of_kind _ _ _ pt1 sa.1)
      (check_eq_false_of_kind _ _ _ pt1 sa.2.1)
      (check_eq_false_of_kind _ _ _ pt1 sa.2.2.1)
      (check_eq_false_of_kind _ _ _ pt1 sa.2.2.2)
  have htb : term 36 ⟨assocToks a o1 b o2 c, 2⟩ =
      .ok (litExpr b) ⟨assocToks a o1 b o2 c, 3⟩ :=
    term_lit 32 _ 2 b rfl hb
      (check_eq_false_of_kind _ _ _ pt3 sb.1)
      (check_eq_false_of_kind _ _ _ pt3 sb.2.1)
      (check_eq_false_of_kind _ _ _ pt3 sb.2.2.1)
      (check_eq_false_of_kind _ _ _ pt3 sb.2.2.2)
  have htc : term 35 ⟨assocToks a o1 b o2 c, 4⟩ =
      .ok (litExpr c) ⟨assocToks a o1 b o2 c, 5⟩ :=
    term_lit 31 _ 4 c rfl hc rfl rfl rfl rfl
  have hm1 : matchT ⟨assocToks a o1 b o2 c, 1⟩
      [.GREATER, .GREATER_EQUAL, .LESS, .LESS_EQUAL] =
      (true, ⟨assocToks a o1 b o2 c, 2⟩) :=
    matchT_cmp_true _ (by rw [pt1]; exact hk)
  have hm3 : matchT ⟨assocToks a o1 b o2 c, 3⟩
      [.GREATER, .GREATER_EQUAL, .LESS, .LESS_EQUAL] =
      (true, ⟨assocToks a o1 b o2 c, 4⟩) :=
    matchT_cmp_true _ (by rw [pt3]; exact ho2)
  have hsCmp : matchT ⟨assocToks a o1 b o2 c, 5⟩
      [.GREATER, .GREATER_EQUAL, .LESS, .LESS_EQUAL] =
      (false, ⟨assocToks a o1 b o2 c, 5⟩) := rfl
  have hsEq : matchT ⟨assocToks a o1 b o2 c, 5⟩ [.BANG_EQUAL, .EQUAL_EQUAL] =
      (false, ⟨assocToks a o1 b o2 c, 5⟩) := rfl
  simp [expression, equality, equalityLoop, comparison, comparisonLoop,
    pv1, pv3, hta, htb, htc, hm1, hm3, hsCmp, hsEq]

/-- Left association at the equality level. -/
theorem assocEqLevel (a o1 b o2 c : Token)
    (ha : isLitKind a.type = true) (hb : isLitKind b.type = true)
    (hc : isLitKind c.type = true)
    (hk : isEqKind o1.type = true) (hoo : o2.type = o1.type) :
    expression 40 ⟨assocToks a o1 b o2 c, 0⟩ =
      .ok (.Binary (.Binary (litExpr a) o1 (litExpr b)) o2 (litExpr c))
        ⟨assocToks a o1 b o2 c, 5⟩ := by
  have ho2 : isEqKind o2.type = true := by rw [hoo]; exact hk
  have pt1 : (peek ⟨assocToks a o1 b o2 c, 1⟩).type = o1.type := rfl
  have pt3 : (peek ⟨assocToks a o1 b o2 c, 3⟩).type = o2.type := rfl
  have pv1 : previous ⟨assocToks a o1 b o2 c, 2⟩ = o1 := rfl
  have pv3 : previous ⟨assocToks a o1 b o2 c, 4⟩ = o2 := rfl
  have sa := eqKind_stops o1.type hk
  have sb := eqKind_stops o2.type ho2
  have hca : comparison 38 ⟨assocToks a o1 b o2 c, 0⟩ =
      .ok (litExpr a) ⟨assocToks a o1 b o2 c, 1⟩ :=
    comparison_lit 33 _ 0 a rfl ha
      (check_eq_false_of_kind _ _ _ pt1 sa.1)
      (check_eq_false_of_kind _ _ _ pt1 sa.2.1)
      (check_eq_false_of_kind _ _ _ pt1 sa.2.2.1)
      (check_eq_false_of_kind _ _ _ pt1 sa.2.2.2.1)
      (check_eq_false_of_kind _ _ _ pt1 sa.2.2.2.2.1)
      (check_eq_false_of_kind _ _ _ pt1 sa.2.2.2.2.2.1)
      (check_eq_false_of_kind _ _ _ pt1 sa.2.2.2.2.2.2.1)
      (check_eq_false_of_kind _ _ _ pt1 sa.2.2.2.2.2.2.2)
  have hcb : comparison 37 ⟨assocToks a o1 b o2 c, 2⟩ =
      .ok (litExpr b) ⟨assocToks a o1 b o2 c, 3⟩ :=
    comparison_lit 32 _ 2 b rfl hb
      (check_eq_false_of_kind _ _ _ pt3 sb.1)
      (check_eq_false_of_kind _ _ _ pt3 sb.2.1)
      (check_eq_false_of_kind _ _ _ pt3 sb.2.2.1)
      (check_eq_false_of_kind _ _ _ pt3 sb.2.2.2.1)
      (check_eq_false_of_kind _ _ _ pt3 sb.2.2.2.2.1)
      (check_eq_false_of_kind _ _ _ pt3 sb.2.2.2.2.2.1)
      (check_eq_false_of_kind _ _ _ pt3 sb.2.2.2.2.2.2.1)
      (check_eq_false_of_kind _ _ _ pt3 sb.2.2.2.2.2.2.2)
  have hcc : comparison 36 ⟨assocToks a o1 b o2 c, 4⟩ =
      .ok (litExpr c) ⟨assocToks a o1 b o2 c, 5⟩ :=
    comparison_lit 31 _ 4 c rfl hc rfl rfl rfl rfl rfl rfl rfl rfl
  have hm1 : matchT ⟨assocToks a o1 b o2 c, 1⟩ [.BANG_EQUAL, .EQUAL_EQUAL] =
      (true, ⟨assocToks a o1 b o2 c, 2⟩) :=
    matchT_eq_true _ (by rw [pt1]; exact hk)
  have hm3 : matchT ⟨assocToks a o1 b o2 c, 3⟩ [.BANG_EQUAL, .EQUAL_EQUAL] =
      (true, ⟨assocToks a o1 b o2 c, 4⟩) :=
    matchT_eq_true _ (by rw [pt3]; exact ho2)
  have hsEq : matchT ⟨assocToks a o1 b o2 c, 5⟩ [.BANG_EQUAL, .EQUAL_EQUAL] =
      (false, ⟨assocToks a o1 b o2 c, 5⟩) := rfl
  simp [expression, equality, equalityLoop, pv1, pv3, hca, hcb, hcc,
    hm1, hm3, hsEq]

/-- Claim C4: for any tokens `a op b op c` — `a`, `b`, `c` literal
primaries with arbitrary lexemes, values and positions, and the two
operator tokens of the same kind, drawn from any of the four binary
precedence levels — parsing folds strictly left-associatively:
`Binary(Binary(a, op, b), op, c)`, never a right-nested tree. -/
theorem binary_same_level_left_assoc
    (a o1 b o2 c : Token)
    (ha : isLitKind a.type = true) (hb : isLitKind b.type = true)
    (hc : isLitKind c.type = true)
    (ho : isBinOpKind o1.type = true) (hoo : o2.type = o1.type) :
    expression 40 ⟨[a, o1, b, o2, c, tEOF 9 9], 0⟩ =
      .ok (.Binary (.Binary (litExpr a) o1 (litExpr b)) o2 (litExpr c))
        ⟨[a, o1, b, o2, c, tEOF 9 9], 5⟩ := by
  cases hcase : o1.type <;>
    try (rw [hcase] at ho; exact absurd ho (by decide))
  case BANG_EQUAL =>
    exact assocEqLevel a o1 b o2 c ha hb hc (by rw [hcase]; rfl) hoo
  case EQUAL_EQUAL =>
    exact assocEqLevel a o1 b o2 c ha hb hc (by rw [hcase]; rfl) hoo
  case GREATER =>
    exact assocCmpLevel a o1 b o2 c ha hb hc (by rw [hcase]; rfl) hoo
  case GREATER_EQUAL =>
    exact assocCmpLevel a o1 b o2 c ha hb hc (by rw [hcase]; rfl) hoo
  case LESS =>
    exact assocCmpLevel a o1 b o2 c ha hb hc (by rw [hcase]; rfl) hoo
  case LESS_EQUAL =>
    exact assocCmpLevel a o1 b o2 c ha hb hc (by rw [hcase]; rfl) hoo
  case MINUS =>
    exact assocAddLevel a o1 b o2 c ha hb hc (by rw [hcase]; rfl) hoo
  case PLUS =>
    exact assocAddLevel a o1 b o2 c ha hb hc (by rw [hcase]; rfl) hoo
  case SLASH =>
    exact assocMulLevel a o1 b o2 c ha hb hc (by rw [hcase]; rfl) hoo
  case STAR =>
    exact assocMulLevel a o1 b o2 c ha hb hc (by rw [hcase]; rfl) hoo

/-- Witness for claim C4 at a concrete input: `1 - 2 - 3` parses as
`(1 - 2) - 3`. -/
theorem binary_same_level_left_assoc_witness :
    expression 40 ⟨[tNum "1" 1 1 1, tOp .MINUS "-" 1 3, tNum "2" 2 1 5,
        tOp .MINUS "-" 1 7, tNum "3" 3 1 9, tEOF 9 9], 0⟩ =
      .ok (.Binary
            (.Binary (litExpr (tNum "1" 1 1 1)) (tOp .MINUS "-" 1 3)
              (litExpr (tNum "2" 2 1 5)))
            (tOp .MINUS "-" 1 7) (litExpr (tNum "3" 3 1 9)))
        ⟨[tNum "1" 1 1 1, tOp .MINUS "-" 1 3, tNum "2" 2 1 5,
          tOp .MINUS "-" 1 7, tNum "3" 3 1 9, tEOF 9 9], 5⟩ :=
  binary_same_level_left_assoc (tNum "1" 1 1 1) (tOp .MINUS "-" 1 3)
    (tNum "2" 2 1 5) (tOp .MINUS "-" 1 7) (tNum "3" 3 1 9)
    rfl rfl rfl rfl rfl
